import Mathlib

/-!
Shallow embedding of `slate_ui/process_control.py` (ProcessControlWorker),
the process-control core of the Slate colony-picking instrument.

Modelling conventions:
- The worker's mutable object state is an explicit `WState` record threaded
  through each stage function.
- Qt signal emissions are recorded in `WState.events` (newest first);
  hardware commands (drive moves, camera reads/releases, sleeps) are recorded
  in `WState.actions` (newest first).
- The drive abort flag (`self.drive_ctrl.abort`) is a monotone boolean set
  asynchronously by the user; the worker polls it at discrete checkpoints.
  We number the polls 0,1,2,... with `WState.clock` and let the environment
  choose the first poll index from which the flag reads true
  (`Env.abortFrom`).  This captures every possible timing of a user stop.
- Python exceptions are modelled by stage bodies returning a `raised` flag
  (or a `Flow` value inside the sampling loops).
- Real-valued coordinates are embedded as `Int`; the code's
  `int(v * 10**3)` micrometer conversion is `um v = v * 1000`.
- `datetime.now() - start_time` wall-clock durations are supplied by the
  environment (`Env.durations`), only their presence (`Option`) matters.
-/

namespace Slate

structure Well where
  id : String
  x : Int
  y : Int
  has_sample : Bool
deriving DecidableEq, Repr

structure Colony where
  id : Nat
  x : Int
  y : Int
  sample_duration : Option Nat
  well : Option String
deriving DecidableEq, Repr

structure PetriDish where
  id : Nat
  name : String
  x : Int
  y : Int
  raw_image_path : String
  annotated_image_path : String
  colonies : List Colony
deriving DecidableEq, Repr

/-- One entry of `CONFIG_LOCATIONS["petri_dishes"]`: id, x, y. -/
structure ConfigDish where
  id : Nat
  x : Int
  y : Int
deriving DecidableEq, Repr

/-- One entry of `CONFIG_LOCATIONS["wells"]`: id, x, y. -/
structure ConfigWell where
  id : String
  x : Int
  y : Int
deriving DecidableEq, Repr

/-- The two JSON configuration documents (`baseplate_locations.json`,
`runtime_parameters.json`), loaded once at module import. -/
structure SlateConfig where
  petri_dishes : List ConfigDish
  wells : List ConfigWell
  sterilizer_x : Int
  sterilizer_y : Int
  sterilizer_z : Int
  camera_offset_x : Int
  camera_offset_y : Int
  colony_depth : Int
  well_depth : Int
  cruise_depth : Int
deriving Repr

/-- The external world of one run: constructor arguments, the timing of the
user's abort request (first abort-poll index reading true), hardware fault
injections, the colony detector's output and wall-clock durations. -/
structure Env where
  petri_dish_names : List String
  petri_dish_count : Nat
  sterilizer_dwell_duration : Nat
  cooling_duration : Nat
  abortFrom : Option Nat
  homeFault : Bool
  captureFailAt : Option Nat
  detected : String → Option (List (Int × Int))
  durations : Nat → Nat

/-- Qt signals emitted by the worker. -/
inductive Event where
  | state (label : String)
  | statusMsg (msg : String)
  | colonyCount (n : Nat)
  | colonyIndex (n : Nat)
  | finished
  | exception
deriving DecidableEq, Repr

/-- Hardware-facing commands issued by the worker. -/
inductive Action where
  | camInit
  | camRead
  | camRelease
  | driveInit
  | home (axis : String)
  | moveDirect (x y z : Int)
  | move (x y z : Int)
  | sleep (seconds : Nat)
  | driveTerminate
deriving DecidableEq, Repr

structure SheetRow where
  well : Option String
  ox : Int
  oy : Int
  dur : Nat
deriving DecidableEq, Repr

/-- One worksheet of the report workbook: title, appended header cells,
appended data rows, and embedded images (path, anchor row). -/
structure Sheet where
  title : String
  header : List String
  rows : List SheetRow
  images : List (String × Nat)
deriving DecidableEq, Repr

/-- The worker's mutable state (Python `self`), plus recorded traces. -/
structure WState where
  clock : Nat
  events : List Event
  actions : List Action
  petri_dishes : List PetriDish
  wells : List Well
  total_colonies : Nat
  camInited : Bool
  driveInited : Bool
  sterileCycles : Nat
  saved : List (List Sheet)
deriving Repr

/-- `int(v * 10**3)`: micrometer conversion before drive submission. -/
def um (v : Int) : Int := v * 1000

/-- Value of the monotone drive abort flag at poll number `clock`. -/
def abortFlag (env : Env) (clock : Nat) : Bool :=
  match env.abortFrom with
  | none => false
  | some n => n ≤ clock

/-- One poll of `self.drive_ctrl.abort`; advances the poll counter. -/
def readAbort (env : Env) (s : WState) : Bool × WState :=
  (abortFlag env s.clock, { s with clock := s.clock + 1 })

def emitE (e : Event) (s : WState) : WState :=
  { s with events := e :: s.events }

def doAct (a : Action) (s : WState) : WState :=
  { s with actions := a :: s.actions }

/-- `ProcessControlWorker.__init__`: build dishes from the first
`petri_dish_count` configured slots (named from operator input) and wells
from configuration, `has_sample` initialized `False`. -/
def initState (cfg : SlateConfig) (env : Env) : WState :=
  { clock := 0
    events := []
    actions := []
    petri_dishes :=
      (cfg.petri_dishes.take env.petri_dish_count).map (fun cd =>
        { id := cd.id
          name := env.petri_dish_names.getD (cd.id - 1) ""
          x := cd.x
          y := cd.y
          raw_image_path := ""
          annotated_image_path := ""
          colonies := [] })
    wells := cfg.wells.map (fun w =>
      { id := w.id, x := w.x, y := w.y, has_sample := false })
    total_colonies := 0
    camInited := false
    driveInited := false
    sterileCycles := 0
    saved := [] }

/-- `init_camera`: status message, open and configure the camera. -/
def init_camera (s : WState) : WState :=
  let s := emitE (.statusMsg "Initializing camera...") s
  let s := doAct .camInit s
  { s with camInited := true }

/-- `init_drives`: status message, create `DriveManager` (so
`self.drive_ctrl` now exists) and initialize the drives. -/
def init_drives (s : WState) : WState :=
  let s := emitE (.statusMsg "Initializing drives...") s
  let s := doAct .driveInit s
  { s with driveInited := true }

/-- `home_drives`: home Z, X, Y in order; an internal `except` clause
catches any homing error, emits the `exception` signal and RETURNS
NORMALLY (the pipeline continues).  `Env.homeFault` injects a fault in the
X homing. -/
def home_drives (env : Env) (s : WState) : WState :=
  let s := emitE (.statusMsg "Homing drive Z [1/3]...") s
  let s := doAct (.home "Z") s
  let s := emitE (.statusMsg "Homing drive X [2/3]...") s
  if env.homeFault then
    emitE .exception s
  else
    let s := doAct (.home "X") s
    let s := emitE (.statusMsg "Homing drive Y [3/3]...") s
    doAct (.home "Y") s

def capture_dish_status (name : String) (i total : Nat) : String :=
  "Capturing image of Petri dish " ++ name ++ " [" ++ toString i ++ "/"
    ++ toString total ++ "]..."

/-- Per-dish body of `capture_images`: move_direct to dish + camera offset
at z = 50, poll abort (break on true), read the camera twice (stale-frame
discard), fault if the environment reports an invalid capture, else record
the raw image path.  Returns (dishes, state, raised). -/
def capture_go (cfg : SlateConfig) (env : Env) (total : Nat) :
    List PetriDish → Nat → WState → (List PetriDish × WState × Bool)
  | [], _, s => ([], s, false)
  | d :: rest, i, s =>
    let s := emitE (.statusMsg (capture_dish_status d.name (i + 1) total)) s
    let s := doAct (.moveDirect (um (d.x + cfg.camera_offset_x))
      (um (d.y + cfg.camera_offset_y)) (um 50)) s
    let p := readAbort env s
    if p.1 then (d :: rest, p.2, false)
    else
      let s := doAct .camRead (doAct .camRead p.2)
      if env.captureFailAt = some i then (d :: rest, s, true)
      else
        let d2 := { d with raw_image_path := d.name ++ ".jpg" }
        let r := capture_go cfg env total rest (i + 1) s
        (d2 :: r.1, r.2.1, r.2.2)

/-- `capture_images`: iterate dishes; `cam.release()` runs at the end both
on normal completion and on the abort break, but NOT when a capture fault
raises. -/
def capture_images (cfg : SlateConfig) (env : Env) (s : WState) :
    WState × Bool :=
  let r := capture_go cfg env s.petri_dishes.length s.petri_dishes 0 s
  let s := { r.2.1 with petri_dishes := r.1 }
  if r.2.2 then (s, true)
  else (doAct .camRelease s, false)

/-- Colonies built from one dish's detected offsets, ids assigned
sequentially from `n`, positions dish origin + offset, duration and well
unset. -/
def colsFrom (dx dy : Int) : Nat → List (Int × Int) → List Colony
  | _, [] => []
  | n, c :: cs =>
    { id := n, x := dx + c.1, y := dy + c.2, sample_duration := none,
      well := none } :: colsFrom dx dy (n + 1) cs

/-- The id-assignment loop of `locate_valid_colonies`: dishes in order;
when the detector reported a dish, append all its colonies and then break
out of the whole loop if the running count has reached 96 ("sanity check");
the outer count check mirrors line-for-line the second `break`. -/
def assign_go (det : String → Option (List (Int × Int))) :
    List PetriDish → Nat → (List PetriDish × Nat)
  | [], count => ([], count)
  | d :: rest, count =>
    match det d.name with
    | some coords =>
      let d2 := { d with colonies := d.colonies ++ colsFrom d.x d.y count coords }
      let count2 := count + coords.length
      if 96 ≤ count2 then (d2 :: rest, count2)
      else
        let r := assign_go det rest count2
        (d2 :: r.1, r.2)
    | none =>
      if 96 ≤ count then (d :: rest, count)
      else
        let r := assign_go det rest count
        (d :: r.1, r.2)

/-- `locate_valid_colonies`: run the detector, write annotated images,
assign colony ids, record and emit the total colony count (the progress
maximum). -/
def locate_valid_colonies (env : Env) (s : WState) : WState :=
  let s := emitE (.statusMsg "Processing images...") s
  let ds0 := s.petri_dishes.map (fun d =>
    { d with annotated_image_path := d.name ++ ".annotated.jpg" })
  let r := assign_go env.detected ds0 0
  let s := { s with petri_dishes := r.1, total_colonies := r.2 }
  emitE (.colonyCount r.2) s

/-- `sterilize_needle`: move to the sterilizer at sterilizing depth, hold
the dwell duration, move to the sterilizer at cruise depth, hold the
cooling duration.  `sterileCycles` counts invocations. -/
def sterilize_needle (cfg : SlateConfig) (env : Env) (s : WState) : WState :=
  let s := emitE (.statusMsg "Sterilizing needle...") s
  let s := doAct (.move (um cfg.sterilizer_x) (um cfg.sterilizer_y)
    (um cfg.sterilizer_z)) s
  let s := doAct (.sleep env.sterilizer_dwell_duration) s
  let s := doAct (.move (um cfg.sterilizer_x) (um cfg.sterilizer_y)
    (um cfg.cruise_depth)) s
  let s := doAct (.sleep env.cooling_duration) s
  { s with sterileCycles := s.sterileCycles + 1 }

/-- Loop-control outcome of one colony / one dish body. -/
inductive Flow where
  | ok
  | brk
  | exn
deriving DecidableEq, Repr

/-- Per-colony body of `run_sampling_cycle`: emit index and status, pick
move, abort poll; well lookup `self.wells[colony.id]` (IndexError → `exn`),
assign the well id, deposit move, abort poll; sterilize, abort poll; record
the wall-clock sample duration, abort poll. -/
def sample_colony (cfg : SlateConfig) (env : Env) (c : Colony) (s : WState) :
    Colony × WState × Flow :=
  let s := emitE (.colonyIndex c.id) s
  let s := emitE (.statusMsg ("Sampling colony " ++ toString (c.id + 1) ++ "...")) s
  let s := doAct (.move (um c.x) (um c.y) (um cfg.colony_depth)) s
  let p := readAbort env s
  if p.1 then (c, p.2, .brk)
  else
    let s := emitE (.statusMsg ("Depositing colony " ++ toString (c.id + 1) ++ "...")) p.2
    match s.wells.get? c.id with
    | none => (c, s, .exn)
    | some w =>
      let c := { c with well := some w.id }
      let s := doAct (.move (um w.x) (um w.y) (um cfg.well_depth)) s
      let q := readAbort env s
      if q.1 then (c, q.2, .brk)
      else
        let s := sterilize_needle cfg env q.2
        let q2 := readAbort env s
        if q2.1 then (c, q2.2, .brk)
        else
          let c := { c with sample_duration := some (env.durations c.id) }
          let q3 := readAbort env q2.2
          if q3.1 then (c, q3.2, .brk)
          else (c, q3.2, .ok)

/-- Inner colony loop of one dish; a `brk`/`exn` from a colony stops the
loop, leaving later colonies untouched. -/
def sample_list (cfg : SlateConfig) (env : Env) :
    List Colony → WState → (List Colony × WState × Flow)
  | [], s => ([], s, .ok)
  | c :: cs, s =>
    let r := sample_colony cfg env c s
    match r.2.2 with
    | .ok =>
      let r2 := sample_list cfg env cs r.2.1
      (r.1 :: r2.1, r2.2.1, r2.2.2)
    | f => (r.1 :: cs, r.2.1, f)

/-- Outer dish loop of `run_sampling_cycle`: after each dish's colony loop
(completed or broken) the abort flag is polled once more; an `exn`
propagates immediately. -/
def sample_dishes (cfg : SlateConfig) (env : Env) :
    List PetriDish → WState → (List PetriDish × WState × Flow)
  | [], s => ([], s, .ok)
  | d :: ds, s =>
    let r := sample_list cfg env d.colonies s
    match r.2.2 with
    | .exn => ({ d with colonies := r.1 } :: ds, r.2.1, .exn)
    | _ =>
      let d2 := { d with colonies := r.1 }
      let p := readAbort env r.2.1
      if p.1 then (d2 :: ds, p.2, .brk)
      else
        let r2 := sample_dishes cfg env ds p.2
        (d2 :: r2.1, r2.2.1, r2.2.2)

/-- `run_sampling_cycle`: one sterilization before the first colony, then
the dish/colony loops.  Returns (state, raised). -/
def run_sampling_cycle (cfg : SlateConfig) (env : Env) (s : WState) :
    WState × Bool :=
  let s := sterilize_needle cfg env s
  let r := sample_dishes cfg env s.petri_dishes s
  ({ r.2.1 with petri_dishes := r.1 }, r.2.2 = Flow.exn)

/-- The header cells appended first to each dish's worksheet. -/
def headerRow : List String :=
  ["Well", "Origin X", "Origin Y", "Cycle Duration (s)"]

/-- Data rows of one dish's sheet: one row per colony whose
`sample_duration` is non-null, in colony order. -/
def sheetRowsOf : List Colony → List SheetRow
  | [] => []
  | c :: cs =>
    match c.sample_duration with
    | some dur => { well := c.well, ox := c.x, oy := c.y, dur := dur } :: sheetRowsOf cs
    | none => sheetRowsOf cs

/-- Embedded images of one dish's sheet: the dish's raw image is inserted
once per enumerated colony, anchored at row `row_num + 2`. -/
def sheetImagesOf (raw : String) : Nat → List Colony → List (String × Nat)
  | _, [] => []
  | n, _ :: cs => (raw, n + 2) :: sheetImagesOf raw (n + 1) cs

/-- The worksheet written for one dish by `save_tabulated_data`. -/
def dishSheet (d : PetriDish) : Sheet :=
  { title := d.name
    header := headerRow
    rows := sheetRowsOf d.colonies
    images := sheetImagesOf d.raw_image_path 0 d.colonies }

def emptySheet : Sheet := { title := "Sheet", header := [], rows := [], images := [] }

/-- Per-dish workbook step: the dish with `id == 1` writes into the
workbook's initial active sheet (retitling it), every other dish gets a
freshly created sheet appended at the end.  (Config dish ids are distinct,
so the active sheet is written at most once.) -/
def wbStep (sheets : List Sheet) (d : PetriDish) : List Sheet :=
  if d.id = 1 then
    match sheets with
    | _ :: rest => dishSheet d :: rest
    | [] => [dishSheet d]
  else sheets ++ [dishSheet d]

/-- Workbook assembly of `save_tabulated_data`: openpyxl starts with one
default active sheet, then each dish is written in order. -/
def buildWorkbook (dishes : List PetriDish) : List Sheet :=
  dishes.foldl wbStep [emptySheet]

/-- `save_tabulated_data`: status message, then persist one workbook built
from the current dishes. -/
def save_tabulated_data (s : WState) : WState :=
  let s := emitE (.statusMsg "Saving run data...") s
  { s with saved := s.saved ++ [buildWorkbook s.petri_dishes] }

/-- `terminate(polite)`: polite mode emits the final progress value and
status messages and performs the park move; both modes release the camera
and terminate the drive session (no call-twice guard of any kind). -/
def terminate (_cfg : SlateConfig) (polite : Bool) (s : WState) : WState :=
  let s := if polite then
      emitE (.statusMsg "Terminating process control...")
        (emitE (.colonyIndex s.total_colonies) s)
    else s
  let s := doAct .camRelease s
  let s := if polite then doAct (.move 450000 (-90000) 0) s else s
  let s := doAct .driveTerminate s
  if polite then emitE (.statusMsg "Process control terminated!") s else s

/-- The `process_actions` table of `run_full_proc`, in order. -/
def process_actions (cfg : SlateConfig) (env : Env) :
    List (String × (WState → WState × Bool)) :=
  [("CAM_INIT", fun s => (init_camera s, false)),
   ("DRIVE_INIT", fun s => (init_drives s, false)),
   ("DRIVE_HOME", fun s => (home_drives env s, false)),
   ("IMG_CAP", fun s => capture_images cfg env s),
   ("IMG_PROC", fun s => (locate_valid_colonies env s, false)),
   ("SAMP_CYC", fun s => run_sampling_cycle cfg env s),
   ("SAV_TAB", fun s => (save_tabulated_data s, false)),
   ("TERM", fun s => (terminate cfg true s, false))]

/-- The stage loop of `run_full_proc`: before each stage, poll the abort
flag (only once `self.drive_ctrl` exists); on abort BREAK out of the whole
loop — the remaining stages, SAV_TAB and TERM included, never run.  A
raised exception propagates out of the loop. -/
def stage_loop (env : Env) :
    List (String × (WState → WState × Bool)) → WState → WState × Bool
  | [], s => (s, false)
  | (label, body) :: rest, s =>
    let p := if s.driveInited then readAbort env s else (false, s)
    if p.1 then (p.2, false)
    else
      let s := emitE (.state label) p.2
      let r := body s
      if r.2 then (r.1, true)
      else stage_loop env rest r.1

/-- `run_full_proc`: run the stage loop; on an unhandled exception,
best-effort save + non-polite terminate, then emit `exception`; otherwise
re-poll the abort flag and emit either the DONE state or the abort status
message, then emit `finished`. -/
def run_full_proc (cfg : SlateConfig) (env : Env) : WState :=
  let r := stage_loop env (process_actions cfg env) (initState cfg env)
  if r.2 then
    let s := save_tabulated_data r.1
    let s := terminate cfg false s
    emitE .exception s
  else
    let p := readAbort env r.1
    let s := if p.1 then emitE (.statusMsg "Run aborted by user!") p.2
      else emitE (.state "DONE") p.2
    emitE .finished s

/-- All colonies of a dish list, in dish-then-within-dish order. -/
def allColonies (ds : List PetriDish) : List Colony :=
  ds.foldr (fun d acc => d.colonies ++ acc) []

/-- Number of colonies whose transfer completed (sample_duration set). -/
def completedCount (s : WState) : Nat :=
  (allColonies s.petri_dishes).countP (fun c => c.sample_duration.isSome)

/-- Colony ids in dish-then-within-dish order. -/
def colonyIds (ds : List PetriDish) : List Nat :=
  (allColonies ds).map (fun c => c.id)

/-- Total number of colonies across a dish list. -/
def colonyTotal (ds : List PetriDish) : Nat :=
  (ds.map (fun d => d.colonies.length)).sum

/-- Chronological payloads of the `colony_index` progress signal. -/
def colonyIndexTrace (s : WState) : List Nat :=
  s.events.reverse.filterMap (fun e =>
    match e with | .colonyIndex n => some n | _ => none)

/-- Chronological payloads of the `colony_count` progress-maximum signal. -/
def colonyCountTrace (s : WState) : List Nat :=
  s.events.reverse.filterMap (fun e =>
    match e with | .colonyCount n => some n | _ => none)

/-- Report rows as the spec words them: one row per colony whose
`sample_duration` is non-null, in colony order (for comparison with the
source-derived `sheetRowsOf`). -/
def reportRowsSpec (cs : List Colony) : List SheetRow :=
  cs.filterMap (fun c => c.sample_duration.map (fun dur =>
    { well := c.well, ox := c.x, oy := c.y, dur := dur }))

def defaultDish : PetriDish :=
  { id := 0, name := "", x := 0, y := 0, raw_image_path := "",
    annotated_image_path := "", colonies := [] }

def defaultColony : Colony :=
  { id := 0, x := 0, y := 0, sample_duration := none, well := none }

/-- The first colony of the first dish (fixed fallbacks). -/
def firstColony (s : WState) : Colony :=
  ((s.petri_dishes.getD 0 defaultDish).colonies.getD 0 defaultColony)

/-- The action trace of one sterilization cycle, newest first: move to the
sterilizer at sterilizing depth, hold the dwell, move to the sterilizer at
cruise depth, hold the cooling time. -/
def sterilizeCycleTrace (cfg : SlateConfig) (env : Env) : List Action :=
  [.sleep env.cooling_duration,
   .move (um cfg.sterilizer_x) (um cfg.sterilizer_y) (um cfg.cruise_depth),
   .sleep env.sterilizer_dwell_duration,
   .move (um cfg.sterilizer_x) (um cfg.sterilizer_y) (um cfg.sterilizer_z)]

/-! ### Concrete fixtures: a representative configuration and run environments -/

def cfgTest : SlateConfig :=
  { petri_dishes := [⟨1, 0, 0⟩, ⟨2, 100, 0⟩, ⟨3, 200, 0⟩,
      ⟨4, 0, 150⟩, ⟨5, 100, 150⟩, ⟨6, 200, 150⟩]
    wells := (List.range 96).map (fun i => ⟨"W" ++ toString i, (i : Int), 250⟩)
    sterilizer_x := 300
    sterilizer_y := 60
    sterilizer_z := -20
    camera_offset_x := 5
    camera_offset_y := 7
    colony_depth := -30
    well_depth := -25
    cruise_depth := -5 }

/-- Baseline environment: dish names P1..P6, 20 s dwell, 5 s cooling, no
fault injection; abort timing and detector output are the parameters. -/
def envA (ab : Option Nat) (count : Nat)
    (det : String → Option (List (Int × Int))) : Env :=
  { petri_dish_names := ["P1", "P2", "P3", "P4", "P5", "P6"]
    petri_dish_count := count
    sterilizer_dwell_duration := 20
    cooling_duration := 5
    abortFrom := ab
    homeFault := false
    captureFailAt := none
    detected := det
    durations := fun _ => 3 }

/-- Detector reporting `k` colonies on dish P1 only. -/
def detP1 (k : Nat) : String → Option (List (Int × Int)) :=
  fun name => if name = "P1" then some ((List.range k).map (fun i => ((i : Int), 1))) else none

/-- A fault-free single-dish run with one detected colony, no abort. -/
def envSuccess : Env := envA none 1 (detP1 1)

/-- Single-dish run with 20 detected colonies, abort first read true at
poll `n`. -/
def envAbortAt (n : Nat) : Env := envA (some n) 1 (detP1 20)

/-- Single-dish, zero-colony run whose drive-X homing faults. -/
def envHomeFault : Env :=
  { envA none 1 (fun _ => none) with homeFault := true }

/-- Detector reporting 60 colonies on P1 and 50 on P2. -/
def detBig : String → Option (List (Int × Int)) :=
  fun name =>
    if name = "P1" then some ((List.range 60).map (fun i => ((i : Int), 2)))
    else if name = "P2" then some ((List.range 50).map (fun i => ((i : Int), 4)))
    else none

/-- Detector reporting nothing on P1 and two colonies on P2. -/
def detSkewed : String → Option (List (Int × Int)) :=
  fun name => if name = "P2" then some [(3, 4), (5, 6)] else none

/-- Two-dish run, no colonies on P1, two on P2, no abort. -/
def envTwoDish : Env := envA none 2 detSkewed

/-- Single-dish single-colony runs aborted at poll `n` (poll 5 = after the
pick move, 6 = after the deposit move, 7 = after sterilization). -/
def envOneColonyAbort (n : Nat) : Env := envA (some n) 1 (detP1 1)

/-- Fault-free single-dish run with two detected colonies, no abort. -/
def envTwoColonies : Env := envA none 1 (detP1 2)

/-- Concrete dish with id 1, two colonies (one transferred, one not). -/
def wd1 : PetriDish :=
  { id := 1, name := "P1", x := 0, y := 0, raw_image_path := "P1.jpg",
    annotated_image_path := "",
    colonies := [{ id := 0, x := 3, y := 4, sample_duration := some 2, well := some "W0" },
                 { id := 1, x := 5, y := 6, sample_duration := none, well := none }] }

/-- Concrete dish with id 2 and no colonies. -/
def wd2 : PetriDish :=
  { id := 2, name := "P2", x := 100, y := 0, raw_image_path := "P2.jpg",
    annotated_image_path := "", colonies := [] }

/-- Concrete worker state entering SAMP_CYC: one dish holding two located
colonies, the 96 configured wells. -/
def wsC6 : WState :=
  { initState cfgTest envSuccess with
      petri_dishes :=
        [{ id := 1, name := "P1", x := 0, y := 0, raw_image_path := "P1.jpg",
           annotated_image_path := "",
           colonies := [{ id := 0, x := 3, y := 4, sample_duration := none, well := none },
                        { id := 1, x := 5, y := 6, sample_duration := none, well := none }] }] }

/-! ### Supporting lemmas -/

theorem emitE_wells (e : Event) (s : WState) : (emitE e s).wells = s.wells := rfl

theorem emitE_petri (e : Event) (s : WState) :
    (emitE e s).petri_dishes = s.petri_dishes := rfl

theorem emitE_cycles (e : Event) (s : WState) :
    (emitE e s).sterileCycles = s.sterileCycles := rfl

theorem doAct_wells (a : Action) (s : WState) : (doAct a s).wells = s.wells := rfl

theorem doAct_petri (a : Action) (s : WState) :
    (doAct a s).petri_dishes = s.petri_dishes := rfl

theorem doAct_cycles (a : Action) (s : WState) :
    (doAct a s).sterileCycles = s.sterileCycles := rfl

theorem readAbort_fst (env : Env) (s : WState) :
    (readAbort env s).1 = abortFlag env s.clock := rfl

theorem readAbort_wells (env : Env) (s : WState) :
    (readAbort env s).2.wells = s.wells := rfl

theorem readAbort_petri (env : Env) (s : WState) :
    (readAbort env s).2.petri_dishes = s.petri_dishes := rfl

theorem readAbort_cycles (env : Env) (s : WState) :
    (readAbort env s).2.sterileCycles = s.sterileCycles := rfl

theorem abortFlag_none (env : Env) (h : env.abortFrom = none) (c : Nat) :
    abortFlag env c = false := by
  simp [abortFlag, h]

theorem sterilize_wells (cfg : SlateConfig) (env : Env) (s : WState) :
    (sterilize_needle cfg env s).wells = s.wells := rfl

theorem sterilize_petri (cfg : SlateConfig) (env : Env) (s : WState) :
    (sterilize_needle cfg env s).petri_dishes = s.petri_dishes := rfl

theorem sterilize_cycles (cfg : SlateConfig) (env : Env) (s : WState) :
    (sterilize_needle cfg env s).sterileCycles = s.sterileCycles + 1 := rfl

theorem sterilize_actions (cfg : SlateConfig) (env : Env) (s : WState) :
    (sterilize_needle cfg env s).actions = sterilizeCycleTrace cfg env ++ s.actions := rfl

/-- Behaviour of one colony body when no abort is ever observed and the
colony id is within the well table: the flow is `ok`, exactly one
sterilization cycle ran, wells and dishes are untouched, and the colony
records the id of the well at index `c.id` plus its wall-clock duration. -/
theorem sample_colony_no_abort (cfg : SlateConfig) (env : Env) (c : Colony) (s : WState)
    (hab : env.abortFrom = none) (hc : c.id < s.wells.length) :
    (sample_colony cfg env c s).2.2 = Flow.ok
    ∧ (sample_colony cfg env c s).2.1.sterileCycles = s.sterileCycles + 1
    ∧ (sample_colony cfg env c s).2.1.wells = s.wells
    ∧ (sample_colony cfg env c s).2.1.petri_dishes = s.petri_dishes
    ∧ (sample_colony cfg env c s).1
        = { c with
            well := (s.wells.get? c.id).map Well.id
            sample_duration := some (env.durations c.id) } := by
  have hopt : s.wells[c.id]? = some (s.wells.get ⟨c.id, hc⟩) :=
    List.getElem?_eq_getElem hc
  simp [sample_colony, readAbort, abortFlag_none env hab, hopt, emitE, doAct,
    sterilize_needle]

/-- Behaviour of a dish's colony loop when no abort is ever observed and
all colony ids are within the well table: flow `ok`, one sterilization per
colony, wells and dishes untouched, every colony mapped to the well at its
id index with its duration recorded. -/
theorem sample_list_no_abort (cfg : SlateConfig) (env : Env)
    (hab : env.abortFrom = none) :
    ∀ (cs : List Colony) (s : WState), (∀ c ∈ cs, c.id < s.wells.length) →
    (sample_list cfg env cs s).2.2 = Flow.ok
    ∧ (sample_list cfg env cs s).2.1.sterileCycles = s.sterileCycles + cs.length
    ∧ (sample_list cfg env cs s).2.1.wells = s.wells
    ∧ (sample_list cfg env cs s).2.1.petri_dishes = s.petri_dishes
    ∧ (sample_list cfg env cs s).1
        = cs.map (fun c =>
            { c with
              well := (s.wells.get? c.id).map Well.id
              sample_duration := some (env.durations c.id) }) := by
  intro cs
  induction cs with
  | nil => intro s _; simp [sample_list]
  | cons c cs ih =>
    intro s h
    have hc : c.id < s.wells.length := h c (by simp)
    obtain ⟨hf, hcy, hwl, hpd, hcol⟩ := sample_colony_no_abort cfg env c s hab hc
    obtain ⟨gf, gcy, gwl, gpd, gcol⟩ := ih (sample_colony cfg env c s).2.1 (by
      intro x hx
      rw [hwl]
      exact h x (by simp [hx]))
    refine ⟨?_, ?_, ?_, ?_, ?_⟩
    · simp [sample_list, hf, gf]
    · simp [sample_list, hf, gcy, hcy]
      omega
    · simp [sample_list, hf, gwl, hwl]
    · simp [sample_list, hf, gpd, hpd]
    · simp [sample_list, hf, gcol, hcol, hwl]

/-- Behaviour of the dish loop when no abort is ever observed and all ids
fit the well table: flow `ok`, `colonyTotal` sterilizations, wells
untouched, and the resulting dish list records well id and duration on
every colony. -/
theorem sample_dishes_no_abort (cfg : SlateConfig) (env : Env)
    (hab : env.abortFrom = none) :
    ∀ (ds : List PetriDish) (s : WState),
    (∀ d ∈ ds, ∀ c ∈ d.colonies, c.id < s.wells.length) →
    (sample_dishes cfg env ds s).2.2 = Flow.ok
    ∧ (sample_dishes cfg env ds s).2.1.sterileCycles
        = s.sterileCycles + colonyTotal ds
    ∧ (sample_dishes cfg env ds s).2.1.wells = s.wells
    ∧ (sample_dishes cfg env ds s).1
        = ds.map (fun d =>
            { d with
              colonies := d.colonies.map (fun c =>
                { c with
                  well := (s.wells.get? c.id).map Well.id
                  sample_duration := some (env.durations c.id) }) }) := by
  intro ds
  induction ds with
  | nil => intro s _; simp [sample_dishes, colonyTotal]
  | cons d ds ih =>
    intro s h
    obtain ⟨hf, hcy, hwl, hpd, hcol⟩ :=
      sample_list_no_abort cfg env hab d.colonies s (h d (by simp))
    have hwl2 : (readAbort env (sample_list cfg env d.colonies s).2.1).2.wells
        = s.wells := by rw [readAbort_wells, hwl]
    obtain ⟨gf, gcy, gwl, gcol⟩ :=
      ih (readAbort env (sample_list cfg env d.colonies s).2.1).2 (by
        intro x hx c hcx
        rw [hwl2]
        exact h x (by simp [hx]) c hcx)
    refine ⟨?_, ?_, ?_, ?_⟩
    · simp [sample_dishes, hf, readAbort_fst, abortFlag_none env hab, gf]
    · simp [sample_dishes, hf, readAbort_fst, abortFlag_none env hab, gcy,
        readAbort_cycles, hcy, colonyTotal]
      omega
    · simp [sample_dishes, hf, readAbort_fst, abortFlag_none env hab, gwl, hwl2]
    · simp [sample_dishes, hf, readAbort_fst, abortFlag_none env hab, gcol,
        hcol, hwl2]

/-- C6: for a sampling cycle that completes all k colony transfers with no
abort observed (and every colony id inside the well table), exactly k + 1
sterilization cycles are executed — one before the first colony and one
after each transfer — and every sterilization cycle consists of: move to
the sterilizer position at sterilizing depth, hold the dwell duration,
move to the sterilizer position at cruise depth, hold the cooling
duration. -/
theorem C6_sterilization_cycles (cfg : SlateConfig) (env : Env) (s : WState)
    (hab : env.abortFrom = none)
    (hw : ∀ d ∈ s.petri_dishes, ∀ c ∈ d.colonies, c.id < s.wells.length) :
    (run_sampling_cycle cfg env s).1.sterileCycles
      = s.sterileCycles + (colonyTotal s.petri_dishes + 1)
    ∧ (run_sampling_cycle cfg env s).2 = false
    ∧ ∀ t : WState, (sterilize_needle cfg env t).actions
        = sterilizeCycleTrace cfg env ++ t.actions := by
  have hw2 : ∀ d ∈ s.petri_dishes, ∀ c ∈ d.colonies,
      c.id < (sterilize_needle cfg env s).wells.length := by
    rw [sterilize_wells]
    exact hw
  obtain ⟨gf, gcy, gwl, gcol⟩ := sample_dishes_no_abort cfg env hab
    s.petri_dishes (sterilize_needle cfg env s) hw2
  refine ⟨?_, ?_, fun t => sterilize_actions cfg env t⟩
  · simp [run_sampling_cycle, sterilize_petri, gcy, sterilize_cycles]
    omega
  · simp [run_sampling_cycle, sterilize_petri, gf]

/-- C6, witness: the sterilization-count theorem applied to a concrete
state entering SAMP_CYC with two located colonies: 2 + 1 = 3 cycles. -/
theorem C6_witness :
    envSuccess.abortFrom = none
    ∧ (∀ d ∈ wsC6.petri_dishes, ∀ c ∈ d.colonies, c.id < wsC6.wells.length)
    ∧ (run_sampling_cycle cfgTest envSuccess wsC6).1.sterileCycles
        = wsC6.sterileCycles + (colonyTotal wsC6.petri_dishes + 1) :=
  ⟨rfl, by decide,
    (C6_sterilization_cycles cfgTest envSuccess wsC6 rfl (by decide)).1⟩

theorem colonyIds_cons (d : PetriDish) (ds : List PetriDish) :
    colonyIds (d :: ds) = d.colonies.map (fun c => c.id) ++ colonyIds ds := by
  simp [colonyIds, allColonies]

theorem colonyIds_of_empty : ∀ ds : List PetriDish,
    (∀ d ∈ ds, d.colonies = []) → colonyIds ds = [] := by
  intro ds
  induction ds with
  | nil => intro _; rfl
  | cons d ds ih =>
    intro h
    rw [colonyIds_cons, h d (by simp), ih (fun x hx => h x (by simp [hx]))]
    rfl

theorem colsFrom_ids (dx dy : Int) :
    ∀ (cs : List (Int × Int)) (n : Nat),
    (colsFrom dx dy n cs).map (fun c => c.id) = List.range' n cs.length := by
  intro cs
  induction cs with
  | nil => intro n; rfl
  | cons c cs ih =>
    intro n
    simp [colsFrom, ih, List.range'_succ]

/-- Id assignment of `locate_valid_colonies` over dishes whose colony
lists start empty: the final count is the start count plus some k, and the
assigned ids are exactly the k consecutive naturals from the start count. -/
theorem assign_go_ids (det : String → Option (List (Int × Int))) :
    ∀ (dishes : List PetriDish) (n : Nat),
    (∀ d ∈ dishes, d.colonies = []) →
    ∃ k, (assign_go det dishes n).2 = n + k
      ∧ colonyIds (assign_go det dishes n).1 = List.range' n k := by
  intro dishes
  induction dishes with
  | nil =>
    intro n _
    exact ⟨0, rfl, rfl⟩
  | cons d ds ih =>
    intro n h
    have hd : d.colonies = [] := h d (by simp)
    have hrest : ∀ x ∈ ds, x.colonies = [] := fun x hx => h x (by simp [hx])
    cases hdet : det d.name with
    | some coords =>
      by_cases hb : 96 ≤ n + coords.length
      · refine ⟨coords.length, ?_, ?_⟩
        · simp [assign_go, hdet, hb]
        · simp [assign_go, hdet, hb, colonyIds_cons, hd, colsFrom_ids,
            colonyIds_of_empty ds hrest]
      · obtain ⟨k, hk1, hk2⟩ := ih (n + coords.length) hrest
        refine ⟨coords.length + k, ?_, ?_⟩
        · simp [assign_go, hdet, hb, hk1]
          omega
        · simp [assign_go, hdet, hb, colonyIds_cons, hd, colsFrom_ids, hk2]
          simp [Nat.add_comm]
    | none =>
      by_cases hb : 96 ≤ n
      · refine ⟨0, ?_, ?_⟩
        · simp [assign_go, hdet, hb]
        · simp [assign_go, hdet, hb, colonyIds_cons, hd,
            colonyIds_of_empty ds hrest]
      · obtain ⟨k, hk1, hk2⟩ := ih n hrest
        refine ⟨k, ?_, ?_⟩
        · simp [assign_go, hdet, hb, hk1]
        · simp [assign_go, hdet, hb, colonyIds_cons, hd, hk2]

/-- C7: colony ids assigned by `locate_valid_colonies` (over dishes whose
colony lists start empty, as built by the constructor) are dense from 0 —
the id sequence in dish-then-within-dish order is exactly
`range total` — and a sampling cycle with no abort maps every colony whose
id is below the well-table length to the well AT INDEX equal to its id. -/
theorem C7_ids_dense_and_well_mapping
    (det : String → Option (List (Int × Int))) (dishes : List PetriDish)
    (hempty : ∀ d ∈ dishes, d.colonies = [])
    (cfg : SlateConfig) (env : Env) (s : WState)
    (hab : env.abortFrom = none)
    (hw : ∀ d ∈ s.petri_dishes, ∀ c ∈ d.colonies, c.id < s.wells.length) :
    colonyIds (assign_go det dishes 0).1 = List.range (assign_go det dishes 0).2
    ∧ ∀ d ∈ (run_sampling_cycle cfg env s).1.petri_dishes, ∀ c ∈ d.colonies,
        c.id < s.wells.length ∧ c.well = (s.wells.get? c.id).map Well.id := by
  constructor
  · obtain ⟨k, hk1, hk2⟩ := assign_go_ids det dishes 0 hempty
    rw [hk1, hk2]
    simp [List.range_eq_range']
  · have hw2 : ∀ d ∈ s.petri_dishes, ∀ c ∈ d.colonies,
        c.id < (sterilize_needle cfg env s).wells.length := by
      rw [sterilize_wells]
      exact hw
    obtain ⟨gf, gcy, gwl, gcol⟩ := sample_dishes_no_abort cfg env hab
      s.petri_dishes (sterilize_needle cfg env s) hw2
    have hpd : (run_sampling_cycle cfg env s).1.petri_dishes
        = (sample_dishes cfg env s.petri_dishes (sterilize_needle cfg env s)).1 := by
      simp [run_sampling_cycle, sterilize_petri]
    intro d hd c hc
    rw [hpd, gcol] at hd
    obtain ⟨d0, hd0, rfl⟩ := List.mem_map.mp hd
    obtain ⟨c0, hc0, rfl⟩ := List.mem_map.mp hc
    refine ⟨hw d0 hd0 c0 hc0, ?_⟩
    simp [sterilize_wells]

/-- C7, witness: the theorem applied to the constructor-built single-dish
state with two detected colonies and the concrete SAMP_CYC entry state. -/
theorem C7_witness :
    (∀ d ∈ (initState cfgTest envSuccess).petri_dishes, d.colonies = [])
    ∧ colonyIds (assign_go (detP1 2) (initState cfgTest envSuccess).petri_dishes 0).1
        = List.range (assign_go (detP1 2) (initState cfgTest envSuccess).petri_dishes 0).2 :=
  ⟨by decide,
    (C7_ids_dense_and_well_mapping (detP1 2) (initState cfgTest envSuccess).petri_dishes
      (by decide) cfgTest envSuccess wsC6 rfl (by decide)).1⟩

theorem sheetRowsOf_eq_spec : ∀ cs : List Colony,
    sheetRowsOf cs = reportRowsSpec cs := by
  intro cs
  induction cs with
  | nil => rfl
  | cons c cs ih =>
    cases h : c.sample_duration <;>
      simp [sheetRowsOf, reportRowsSpec, List.filterMap_cons, h, ih]

theorem sheetImagesOf_length (raw : String) :
    ∀ (cs : List Colony) (n : Nat), (sheetImagesOf raw n cs).length = cs.length := by
  intro cs
  induction cs with
  | nil => intro n; rfl
  | cons c cs ih =>
    intro n
    simp [sheetImagesOf, ih]

theorem sheetImagesOf_path (raw : String) :
    ∀ (cs : List Colony) (n : Nat), ∀ p ∈ sheetImagesOf raw n cs, p.1 = raw := by
  intro cs
  induction cs with
  | nil =>
    intro n p hp
    simp [sheetImagesOf] at hp
  | cons c cs ih =>
    intro n p hp
    rcases List.mem_cons.mp hp with h | h
    · subst h
      rfl
    · exact ih (n + 1) p h

theorem wbStep_foldl : ∀ (ds : List PetriDish) (acc : List Sheet),
    (∀ d ∈ ds, d.id ≠ 1) → ds.foldl wbStep acc = acc ++ ds.map dishSheet := by
  intro ds
  induction ds with
  | nil =>
    intro acc _
    simp
  | cons d ds ih =>
    intro acc h
    have hd : d.id ≠ 1 := h d (by simp)
    rw [List.foldl_cons, List.map_cons,
      show wbStep acc d = acc ++ [dishSheet d] from by simp [wbStep, hd],
      ih (acc ++ [dishSheet d]) (fun x hx => h x (by simp [hx]))]
    simp

/-- C5, amended: when the configured dish with id 1 comes first and no
other dish has id 1 (the shape of every constructor-built run), the
persisted workbook is exactly one sheet per dish, in dish order; each
dish's sheet carries the dish name as title, the header cells
{Well, Origin X, Origin Y, Cycle Duration (s)}, exactly one data row per
colony with non-null sample_duration (never-transferred colonies produce
none), and the dish's raw captured image inserted once PER COLONY — so a
dish with no colonies embeds no image and a dish with several embeds
several copies. -/
theorem C5_amended (d0 : PetriDish) (rest : List PetriDish)
    (h1 : d0.id = 1) (h2 : ∀ d ∈ rest, d.id ≠ 1) :
    buildWorkbook (d0 :: rest) = (d0 :: rest).map dishSheet
    ∧ ∀ d : PetriDish,
        (dishSheet d).title = d.name
        ∧ (dishSheet d).header = headerRow
        ∧ (dishSheet d).rows = reportRowsSpec d.colonies
        ∧ (dishSheet d).images.length = d.colonies.length
        ∧ ∀ p ∈ (dishSheet d).images, p.1 = d.raw_image_path := by
  constructor
  · rw [buildWorkbook, List.foldl_cons,
      show wbStep [emptySheet] d0 = [dishSheet d0] from by simp [wbStep, h1],
      wbStep_foldl rest [dishSheet d0] h2]
    simp
  · intro d
    exact ⟨rfl, rfl, sheetRowsOf_eq_spec d.colonies,
      sheetImagesOf_length d.raw_image_path d.colonies 0,
      sheetImagesOf_path d.raw_image_path d.colonies 0⟩

/-- C5, witness: the amended workbook theorem applied to two concrete
dishes (id 1 first). -/
theorem C5_witness :
    wd1.id = 1 ∧ (∀ d ∈ [wd2], d.id ≠ 1)
    ∧ buildWorkbook [wd1, wd2] = [wd1, wd2].map dishSheet :=
  ⟨rfl, by decide, (C5_amended wd1 [wd2] rfl (by decide)).1⟩

theorem init_camera_wells (s : WState) : (init_camera s).wells = s.wells := rfl

theorem init_drives_wells (s : WState) : (init_drives s).wells = s.wells := rfl

theorem home_drives_wells (env : Env) (s : WState) :
    (home_drives env s).wells = s.wells := by
  cases h : env.homeFault <;> simp [home_drives, h, emitE, doAct]

theorem capture_go_wells (cfg : SlateConfig) (env : Env) (total : Nat) :
    ∀ (ds : List PetriDish) (i : Nat) (s : WState),
    (capture_go cfg env total ds i s).2.1.wells = s.wells := by
  intro ds
  induction ds with
  | nil =>
    intro i s
    rfl
  | cons d ds ih =>
    intro i s
    simp only [capture_go]
    split
    · simp [readAbort, emitE, doAct]
    · split
      · simp [readAbort, emitE, doAct]
      · simp [readAbort, emitE, doAct, ih]

theorem capture_images_wells (cfg : SlateConfig) (env : Env) (s : WState) :
    ((capture_images cfg env s).1).wells = s.wells := by
  simp only [capture_images]
  split <;> simp [doAct, capture_go_wells]

theorem locate_wells (env : Env) (s : WState) :
    (locate_valid_colonies env s).wells = s.wells := by
  simp [locate_valid_colonies, emitE]

theorem sample_colony_wells (cfg : SlateConfig) (env : Env) (c : Colony) (s : WState) :
    (sample_colony cfg env c s).2.1.wells = s.wells := by
  simp only [sample_colony]
  split
  · simp [readAbort, emitE, doAct]
  · split
    · simp [readAbort, emitE, doAct]
    · split
      · simp [readAbort, emitE, doAct]
      · split
        · simp [readAbort, emitE, doAct, sterilize_needle]
        · split <;> simp [readAbort, emitE, doAct, sterilize_needle]

theorem sample_list_wells (cfg : SlateConfig) (env : Env) :
    ∀ (cs : List Colony) (s : WState),
    (sample_list cfg env cs s).2.1.wells = s.wells := by
  intro cs
  induction cs with
  | nil =>
    intro s
    rfl
  | cons c cs ih =>
    intro s
    simp only [sample_list]
    split
    · rw [ih, sample_colony_wells]
    · rw [sample_colony_wells]

theorem sample_dishes_wells (cfg : SlateConfig) (env : Env) :
    ∀ (ds : List PetriDish) (s : WState),
    (sample_dishes cfg env ds s).2.1.wells = s.wells := by
  intro ds
  induction ds with
  | nil =>
    intro s
    rfl
  | cons d ds ih =>
    intro s
    simp only [sample_dishes]
    split
    · rw [sample_list_wells]
    · split
      · simp [readAbort, sample_list_wells]
      · simp [readAbort, ih, sample_list_wells]

theorem run_sampling_cycle_wells (cfg : SlateConfig) (env : Env) (s : WState) :
    ((run_sampling_cycle cfg env s).1).wells = s.wells := by
  simp [run_sampling_cycle, sample_dishes_wells, sterilize_wells]

theorem save_wells (s : WState) : (save_tabulated_data s).wells = s.wells := by
  simp [save_tabulated_data, emitE]

theorem terminate_wells (cfg : SlateConfig) (polite : Bool) (s : WState) :
    (terminate cfg polite s).wells = s.wells := by
  cases polite <;> simp [terminate, emitE, doAct]

theorem stage_loop_wells (env : Env) :
    ∀ (acts : List (String × (WState → WState × Bool))) (s : WState),
    (∀ p ∈ acts, ∀ t : WState, ((p.2 t).1).wells = t.wells) →
    ((stage_loop env acts s).1).wells = s.wells := by
  intro acts
  induction acts with
  | nil =>
    intro s _
    rfl
  | cons a rest ih =>
    intro s h
    have ha : ∀ t : WState, ((a.2 t).1).wells = t.wells := h a (by simp)
    have hrest : ∀ p ∈ rest, ∀ t : WState, ((p.2 t).1).wells = t.wells :=
      fun p hp => h p (by simp [hp])
    have hbody : ∀ t : WState,
        ((if (a.2 t).2 then ((a.2 t).1, true) else stage_loop env rest (a.2 t).1).1).wells
          = t.wells := by
      intro t
      split
      · exact ha t
      · rw [ih _ hrest, ha t]
    simp only [stage_loop]
    cases hd : s.driveInited
    · simpa [hd, emitE] using hbody (emitE (Event.state a.1) s)
    · cases hab : abortFlag env s.clock
      · simpa [hd, hab, emitE, readAbort] using
          hbody (emitE (Event.state a.1) (readAbort env s).2)
      · simp [hd, hab, readAbort]

theorem process_actions_wells (cfg : SlateConfig) (env : Env) :
    ∀ p ∈ process_actions cfg env, ∀ t : WState, ((p.2 t).1).wells = t.wells := by
  intro p hp t
  simp only [process_actions, List.mem_cons, List.not_mem_nil, or_false] at hp
  rcases hp with rfl | rfl | rfl | rfl | rfl | rfl | rfl | rfl
  · exact init_camera_wells t
  · exact init_drives_wells t
  · exact home_drives_wells env t
  · exact capture_images_wells cfg env t
  · exact locate_wells env t
  · exact run_sampling_cycle_wells cfg env t
  · exact save_wells t
  · exact terminate_wells cfg true t

/-- C9, amended: the `has_sample` flag of every well is false at
construction and is NEVER mutated anywhere in the pipeline — the well
table of the final state of every run (success, abort or fault) is exactly
the constructor-built table, in which every flag is false; wells that
receive deposits keep `has_sample = false`. -/
theorem C9_amended (cfg : SlateConfig) (env : Env) :
    (run_full_proc cfg env).wells = (initState cfg env).wells
    ∧ ∀ w ∈ (initState cfg env).wells, w.has_sample = false := by
  constructor
  · have hloop := stage_loop_wells env (process_actions cfg env)
      (initState cfg env) (process_actions_wells cfg env)
    simp only [run_full_proc]
    split
    · simp [save_wells, terminate_wells, emitE, hloop]
    · split <;> simp [emitE, readAbort, hloop]
  · intro w hw
    simp only [initState] at hw
    obtain ⟨cw, hcw, rfl⟩ := List.mem_map.mp hw
    rfl

/-- C9, witness: the invariance theorem applied at the concrete successful
run and the concrete first well. -/
theorem C9_witness :
    (run_full_proc cfgTest envSuccess).wells = (initState cfgTest envSuccess).wells
    ∧ (({ id := "W0", x := 0, y := 250, has_sample := false } : Well)
          ∈ (initState cfgTest envSuccess).wells
        → ({ id := "W0", x := 0, y := 250, has_sample := false } : Well).has_sample
            = false) :=
  ⟨(C9_amended cfgTest envSuccess).1,
    fun hm => (C9_amended cfgTest envSuccess).2 _ hm⟩

/-- C1, counterexample: in a run stopped after colony 5 of 20 (abort flag
first reads true at poll 24, the post-record checkpoint of colony 5), the
worker has collected exactly 5 sample durations, yet the SAV_TAB stage is
never entered, no workbook is persisted, and the drive session is never
terminated — refuting the claim that SAV_TAB and TERM still execute and 5
report rows are persisted. -/
theorem C1_counterexample :
    Event.state "SAV_TAB" ∉ (run_full_proc cfgTest (envAbortAt 24)).events
    ∧ Event.state "TERM" ∉ (run_full_proc cfgTest (envAbortAt 24)).events
    ∧ (run_full_proc cfgTest (envAbortAt 24)).saved = []
    ∧ completedCount (run_full_proc cfgTest (envAbortAt 24)) = 5
    ∧ Action.driveTerminate ∉ (run_full_proc cfgTest (envAbortAt 24)).actions := by
  decide

/-- C1, amended: when the user abort is observed at any checkpoint up to
and including colony 5 of the 20-colony sampling cycle (polls 0..26), the
worker skips ALL remaining stages — SAV_TAB and TERM included — so nothing
is persisted and the drive session is not released; the terminal
notification is still `finished` (with the aborted status message), never
`fault`; in the stop-after-colony-5 run exactly 5 colonies hold sample
durations, in memory only. -/
theorem C1_amended :
    (∀ n : Nat, n < 27 →
      Event.state "SAV_TAB" ∉ (run_full_proc cfgTest (envAbortAt n)).events
      ∧ Event.state "TERM" ∉ (run_full_proc cfgTest (envAbortAt n)).events
      ∧ (run_full_proc cfgTest (envAbortAt n)).saved = []
      ∧ Event.finished ∈ (run_full_proc cfgTest (envAbortAt n)).events
      ∧ Event.exception ∉ (run_full_proc cfgTest (envAbortAt n)).events
      ∧ Action.driveTerminate ∉ (run_full_proc cfgTest (envAbortAt n)).actions)
    ∧ completedCount (run_full_proc cfgTest (envAbortAt 24)) = 5
    ∧ Event.statusMsg "Run aborted by user!"
        ∈ (run_full_proc cfgTest (envAbortAt 24)).events := by
  decide

/-- C1, witness: the amended theorem applied at the concrete
stop-after-colony-5 poll index 24. -/
theorem C1_witness :
    (24 : Nat) < 27
    ∧ (Event.state "SAV_TAB" ∉ (run_full_proc cfgTest (envAbortAt 24)).events
      ∧ Event.state "TERM" ∉ (run_full_proc cfgTest (envAbortAt 24)).events
      ∧ (run_full_proc cfgTest (envAbortAt 24)).saved = []
      ∧ Event.finished ∈ (run_full_proc cfgTest (envAbortAt 24)).events
      ∧ Event.exception ∉ (run_full_proc cfgTest (envAbortAt 24)).events
      ∧ Action.driveTerminate ∉ (run_full_proc cfgTest (envAbortAt 24)).actions) :=
  ⟨by decide, C1_amended.1 24 (by decide)⟩

/-- C2: a drive-homing fault is caught inside `home_drives`, which emits
the `exception` signal and returns normally, so the run continues to
completion and also emits `finished` — two terminal notifications in one
run, contradicting the exactly-one guarantee (and the signal's own
"thread terminated" doc comment). -/
theorem C2_homing_fault_double_terminal :
    Event.exception ∈ (run_full_proc cfgTest envHomeFault).events
    ∧ Event.finished ∈ (run_full_proc cfgTest envHomeFault).events
    ∧ (run_full_proc cfgTest envHomeFault).events.count Event.exception = 1
    ∧ (run_full_proc cfgTest envHomeFault).events.count Event.finished = 1
    ∧ Event.state "DONE" ∈ (run_full_proc cfgTest envHomeFault).events := by
  decide

/-- C3: with 60 colonies detected on dish P1 and 50 on dish P2 (N = 110 >
96), `locate_valid_colonies` keeps ALL 110 colonies: the 96-cap check only
breaks between dishes after a whole dish has been appended, and no
dish-fair random draw (nor any other reduction to exactly 96) exists; the
run configuration has only 96 wells, so colony ids 96..109 exceed the well
table. -/
theorem C3_capacity_overflow :
    (assign_go detBig (initState cfgTest (envA none 2 detBig)).petri_dishes 0).2 = 110
    ∧ (allColonies
        (assign_go detBig (initState cfgTest (envA none 2 detBig)).petri_dishes 0).1).length
        = 110
    ∧ colonyIds
        (assign_go detBig (initState cfgTest (envA none 2 detBig)).petri_dishes 0).1
        = List.range 110
    ∧ cfgTest.wells.length = 96 := by
  decide

/-- C4, counterexample: in a fully successful run the camera handle is
released TWICE — once at the end of `capture_images` and once in
`terminate` — refuting "released exactly once on every exit path". -/
theorem C4_counterexample :
    (run_full_proc cfgTest envSuccess).actions.count Action.camRelease = 2 := by
  decide

/-- C4, amended: on the success path the camera is released once at the
end of IMG_CAP and once more in TERM (two releases), and the drive session
is terminated once; `terminate` has no call-twice guard, so invoking it a
second time (abort followed by an explicit stop) releases the camera and
terminates the drive session again. -/
theorem C4_amended :
    (run_full_proc cfgTest envSuccess).actions.count Action.camRelease = 2
    ∧ (run_full_proc cfgTest envSuccess).actions.count Action.driveTerminate = 1
    ∧ (terminate cfgTest false (run_full_proc cfgTest envSuccess)).actions.count
        Action.camRelease = 3
    ∧ (terminate cfgTest false (run_full_proc cfgTest envSuccess)).actions.count
        Action.driveTerminate = 2 := by
  decide

/-- C5, counterexample: in a two-dish run where dish P1 has no colonies and
dish P2 has two, the persisted workbook's P1 sheet embeds NO raw image (the
image is inserted once per colony, inside the colony loop), refuting "each
dish's raw captured image is embedded in that dish's sheet". -/
theorem C5_counterexample :
    (((run_full_proc cfgTest envTwoDish).saved.getD 0 []).getD 0 emptySheet).title = "P1"
    ∧ (((run_full_proc cfgTest envTwoDish).saved.getD 0 []).getD 0 emptySheet).images = []
    ∧ (((run_full_proc cfgTest envTwoDish).saved.getD 0 []).getD 1 emptySheet).title = "P2"
    ∧ (((run_full_proc cfgTest envTwoDish).saved.getD 0 []).getD 1 emptySheet).images.length
        = 2 := by
  decide

/-- C8, counterexample: with the abort observed right after colony 0's pick
move, zero transfers completed, yet the running colony index 0 was already
emitted — the index is emitted at the START of each colony's cycle, not
after the completed transfer. -/
theorem C8_counterexample :
    Event.colonyIndex 0 ∈ (run_full_proc cfgTest (envOneColonyAbort 5)).events
    ∧ completedCount (run_full_proc cfgTest (envOneColonyAbort 5)) = 0 := by
  decide

/-- C8, amended: the total colony count is emitted exactly once, at the end
of IMG_PROC, as the progress maximum (that part of the claim holds); the
running colony index is emitted at the start of each attempted colony's
cycle — before its transfer, as the aborted run shows — and once more with
the total during polite termination: a complete 2-colony run emits index
payloads [0, 1, 2]. -/
theorem C8_amended :
    colonyCountTrace (run_full_proc cfgTest envTwoColonies) = [2]
    ∧ colonyIndexTrace (run_full_proc cfgTest envTwoColonies) = [0, 1, 2]
    ∧ completedCount (run_full_proc cfgTest envTwoColonies) = 2
    ∧ colonyIndexTrace (run_full_proc cfgTest (envOneColonyAbort 5)) = [0]
    ∧ completedCount (run_full_proc cfgTest (envOneColonyAbort 5)) = 0 := by
  decide

/-- C9, counterexample: a successful run deposits colony 0 into well W0
(the colony records its well and duration), yet the well's `has_sample`
flag is still false — nothing in the code ever sets it. -/
theorem C9_counterexample :
    completedCount (run_full_proc cfgTest envSuccess) = 1
    ∧ (firstColony (run_full_proc cfgTest envSuccess)).well = some "W0"
    ∧ ((run_full_proc cfgTest envSuccess).wells.getD 0
        { id := "", x := 0, y := 0, has_sample := true }).has_sample = false := by
  decide

/-- C10: if the abort is observed at the checkpoint after the deposit move
but before sterilization (poll 6), or at the checkpoint after sterilization
(poll 7), the colony ends the run with its well id assigned and its
sample_duration still null, its deposit move into well W0 did occur, and
the workbook built from the final dishes contains no row for it. -/
theorem C10_abort_between_deposit_and_record :
    ((firstColony (run_full_proc cfgTest (envOneColonyAbort 6))).well = some "W0"
      ∧ (firstColony (run_full_proc cfgTest (envOneColonyAbort 6))).sample_duration = none
      ∧ Action.move (um 0) (um 250) (um (-25))
          ∈ (run_full_proc cfgTest (envOneColonyAbort 6)).actions
      ∧ ((buildWorkbook (run_full_proc cfgTest (envOneColonyAbort 6)).petri_dishes).getD 0
          emptySheet).rows = [])
    ∧ ((firstColony (run_full_proc cfgTest (envOneColonyAbort 7))).well = some "W0"
      ∧ (firstColony (run_full_proc cfgTest (envOneColonyAbort 7))).sample_duration = none
      ∧ Action.move (um 0) (um 250) (um (-25))
          ∈ (run_full_proc cfgTest (envOneColonyAbort 7)).actions
      ∧ ((buildWorkbook (run_full_proc cfgTest (envOneColonyAbort 7)).petri_dishes).getD 0
          emptySheet).rows = []) := by
  decide

end Slate
